import Mathlib

/-!
Shallow embedding of the per-frame game-state update engine of
`big_space_rock` (`src/src/main.rs`), an Asteroids-style arcade game
built on top of the macroquad framework.

Scalar model: the game computes with `f32`.  We model `f32` values with
the type `F` below: a finite value carries an exact rational, and the
special values `inf`, `ninf` and `nan` are explicit constructors, with
IEEE-754 propagation rules on the operations the game uses.  Decimal
literals of the source (`0.15`, `1.4`, `0.55`, ...) are modelled as the
exact rationals they denote; the `f32` roundings of these literals differ
from the rationals by less than `1e-6`, and no comparison stated in any
theorem below is decided within that margin.  `F.fsqrt` is exact on
perfect squares (every theorem below only evaluates it there) and a
rational under-approximation elsewhere.  Finite-arithmetic overflow to
infinity is not modelled; no evaluated input reaches `f32` range limits.

The session RNG (`Xoshiro256PlusPlus` from the `rand_xoshiro` crate) is
external library code; it is modelled as its output stream: an arbitrary
function from draw index to raw 64-bit output, together with a cursor.
The `rand` crate's samplers (`gen::<f32>`, `gen::<u64>`, `gen::<bool>`,
`gen_range`) are likewise external; each is modelled as a deterministic
in-range function of one raw stream output.  No theorem below depends on
which values the session stream produces, only on how many draws happen
and on determinism.  The silhouette generator's dedicated
`Xoshiro256StarStar` generator is embedded faithfully (SplitMix64
seeding and the xoshiro256** step) because seed-determinism is exactly
what is claimed about it.

`cosf`/`sinf` (used via glam's `Vec2::from_angle`) are external math
library functions; they enter through the `FloatOps` parameter, an
arbitrary pair of functions on `F`.  No theorem depends on their values.
-/

namespace BigSpaceRock

/-- Model of an `f32` value: exact rational, or an IEEE special value. -/
inductive F where
  | fin : ℚ → F
  | inf : F
  | ninf : F
  | nan : F
deriving DecidableEq, Repr

/-- IEEE addition on the model. -/
def F.add : F → F → F
  | nan, _ => nan
  | _, nan => nan
  | inf, ninf => nan
  | ninf, inf => nan
  | inf, _ => inf
  | _, inf => inf
  | ninf, _ => ninf
  | _, ninf => ninf
  | fin a, fin b => fin (a + b)

/-- IEEE negation on the model. -/
def F.neg : F → F
  | nan => nan
  | inf => ninf
  | ninf => inf
  | fin a => fin (-a)

/-- IEEE subtraction on the model. -/
def F.sub (a b : F) : F := a.add b.neg

/-- IEEE multiplication on the model (`0 * inf = nan`). -/
def F.mul : F → F → F
  | nan, _ => nan
  | _, nan => nan
  | inf, fin a => if a = 0 then nan else if 0 < a then inf else ninf
  | fin a, inf => if a = 0 then nan else if 0 < a then inf else ninf
  | ninf, fin a => if a = 0 then nan else if 0 < a then ninf else inf
  | fin a, ninf => if a = 0 then nan else if 0 < a then ninf else inf
  | inf, inf => inf
  | inf, ninf => ninf
  | ninf, inf => ninf
  | ninf, ninf => inf
  | fin a, fin b => fin (a * b)

/-- IEEE reciprocal (`f32::recip`): `1/0 = inf` (the sign of zero is not
modelled; only `+0` is reached in the theorems below). -/
def F.recip : F → F
  | nan => nan
  | inf => fin 0
  | ninf => fin 0
  | fin a => if a = 0 then inf else fin a⁻¹

/-- Rational under-approximation of the square root, exact on perfect
squares (`num * den` a perfect square); only such inputs are evaluated. -/
def ratSqrt (q : ℚ) : ℚ := (Nat.sqrt (q.num.toNat * q.den) : ℚ) / (q.den : ℚ)

/-- IEEE square root on the model. -/
def F.fsqrt : F → F
  | nan => nan
  | inf => inf
  | ninf => nan
  | fin a => if a < 0 then nan else fin (ratSqrt a)

/-- IEEE `<` as a boolean (comparisons with `nan` are false). -/
def F.blt : F → F → Bool
  | nan, _ => false
  | _, nan => false
  | fin a, fin b => decide (a < b)
  | fin _, inf => true
  | fin _, ninf => false
  | inf, _ => false
  | ninf, ninf => false
  | ninf, _ => true

/-- IEEE `<=` as a boolean (comparisons with `nan` are false). -/
def F.ble : F → F → Bool
  | nan, _ => false
  | _, nan => false
  | fin a, fin b => decide (a ≤ b)
  | fin _, inf => true
  | fin _, ninf => false
  | inf, inf => true
  | inf, _ => false
  | ninf, _ => true

/-- IEEE `>` as a boolean. -/
def F.bgt (a b : F) : Bool := F.blt b a

/-- IEEE `==` as a boolean (`nan` equals nothing). -/
def F.beq : F → F → Bool
  | nan, _ => false
  | _, nan => false
  | fin a, fin b => decide (a = b)
  | inf, inf => true
  | ninf, ninf => true
  | _, _ => false

/-- `f32::is_finite`. -/
def F.isFinite : F → Bool
  | fin _ => true
  | _ => false

/-- Truncation toward zero of a rational, as used by Rust's `%`. -/
def ratTrunc (q : ℚ) : ℤ := if 0 ≤ q then ⌊q⌋ else ⌈q⌉

/-- Rust `%` on `f32` (IEEE `fmod`, which is exact): remainder with the
sign of the dividend. -/
def F.fmod : F → F → F
  | nan, _ => nan
  | _, nan => nan
  | inf, _ => nan
  | ninf, _ => nan
  | fin a, inf => fin a
  | fin a, ninf => fin a
  | fin a, fin b => if b = 0 then nan else fin (a - b * (ratTrunc (a / b) : ℚ))

/-- Model of glam's `Vec2` over the `f32` model. -/
structure FVec2 where
  x : F
  y : F
deriving DecidableEq, Repr

/-- `Vec2::ZERO`. -/
def FVec2.zeroV : FVec2 := ⟨F.fin 0, F.fin 0⟩

/-- Componentwise vector addition. -/
def FVec2.vadd (a b : FVec2) : FVec2 := ⟨a.x.add b.x, a.y.add b.y⟩

/-- Componentwise vector subtraction. -/
def FVec2.vsub (a b : FVec2) : FVec2 := ⟨a.x.sub b.x, a.y.sub b.y⟩

/-- `Vec2 * f32` (componentwise scalar multiplication). -/
def FVec2.smul (a : FVec2) (s : F) : FVec2 := ⟨a.x.mul s, a.y.mul s⟩

/-- `Vec2::dot`. -/
def FVec2.dot (a b : FVec2) : F := (a.x.mul b.x).add (a.y.mul b.y)

/-- `Vec2::length` (glam: `self.dot(self).sqrt()`). -/
def FVec2.length (a : FVec2) : F := (a.dot a).fsqrt

/-- `Vec2::length_recip` (glam: `self.length().recip()`). -/
def FVec2.lengthRecip (a : FVec2) : F := a.length.recip

/-- `Vec2::distance` (glam: `(self - rhs).length()`). -/
def FVec2.fdist (a b : FVec2) : F := (a.vsub b).length

/-- `Vec2::normalize` (glam: `self.mul(self.length().recip())`); on the
zero vector this produces `(nan, nan)`. -/
def FVec2.normalize (a : FVec2) : FVec2 := a.smul a.lengthRecip

/-- `Vec2::try_normalize` (glam: `Some(self * rcp)` when the reciprocal
length is finite and positive, else `None`). -/
def FVec2.tryNormalize (a : FVec2) : Option FVec2 :=
  let rcp := a.lengthRecip
  if rcp.isFinite && rcp.bgt (F.fin 0) then some (a.smul rcp) else none

/-- `Vec2::normalize_or_zero`. -/
def FVec2.normalizeOrZero (a : FVec2) : FVec2 :=
  let rcp := a.lengthRecip
  if rcp.isFinite && rcp.bgt (F.fin 0) then a.smul rcp else FVec2.zeroV

/-- External math backend: `cosf`/`sinf` as used by `Vec2::from_angle`.
Modelled as an arbitrary parameter; no theorem depends on their values. -/
structure FloatOps where
  fcos : F → F
  fsin : F → F

/-- `Vec2::from_angle` (glam: `(cos a, sin a)`). -/
def fromAngle (ops : FloatOps) (a : F) : FVec2 := ⟨ops.fcos a, ops.fsin a⟩

/-- The `f32` value of `std::f32::consts::TAU`. -/
def tauF : F := F.fin (13176795 / 2097152)

/-- The `f32` value of `std::f32::consts::PI`. -/
def piF : F := F.fin (13176795 / 4194304)

/-- `keep_in_frame` (main.rs:725-730): per axis, a coordinate `<= 0`
snaps to the axis extent (`SIZE = (1280, 960)`), otherwise it is taken
modulo the extent. -/
def keep_in_frame (vec : FVec2) : FVec2 :=
  let new_x := if vec.x.ble (F.fin 0) then F.fin 1280 else vec.x.fmod (F.fin 1280)
  let new_y := if vec.y.ble (F.fin 0) then F.fin 960 else vec.y.fmod (F.fin 960)
  ⟨new_x, new_y⟩

/-! ## Session RNG model

The session generator `Xoshiro256PlusPlus` (external crate) is modelled
as its output stream plus a cursor.  The `rand` crate samplers are
modelled as deterministic in-range functions of one raw output each. -/

/-- Session RNG: an arbitrary stream of raw 64-bit outputs and a cursor. -/
structure RngState where
  stream : ℕ → ℕ
  idx : ℕ

/-- One raw 64-bit output (`rand_core::RngCore::next_u64`). -/
def RngState.nextU64 (r : RngState) : ℕ × RngState :=
  (r.stream r.idx % 2 ^ 64, ⟨r.stream, r.idx + 1⟩)

/-- `gen::<f32>()`: one draw, mapped to a dyadic rational in `[0, 1)`
(models the rand crate's 24-bit mantissa sampling). -/
def RngState.nextF32 (r : RngState) : F × RngState :=
  (F.fin ((r.stream r.idx % 2 ^ 24 : ℕ) / (2 ^ 24 : ℚ)), ⟨r.stream, r.idx + 1⟩)

/-- `gen::<bool>()`: one draw, reduced to a bit. -/
def RngState.nextBool (r : RngState) : Bool × RngState :=
  (r.stream r.idx % 2 = 1, ⟨r.stream, r.idx + 1⟩)

/-! ## Entity model (main.rs:27-376) -/

/-- `DeathTime` (main.rs:27-40): `new(time)` records the death time and
the revive deadline `time + 3.0`. -/
structure DeathTime where
  death_timer : F
  death_time : F
deriving DecidableEq, Repr

/-- `DeathTime::new` (main.rs:34-39). -/
def DeathTime.new (time : F) : DeathTime :=
  ⟨time.add (F.fin 3), time⟩

/-- `ShipStatus` (main.rs:42-45). -/
inductive ShipStatus where
  | Alive : ShipStatus
  | Dead : DeathTime → ShipStatus
deriving DecidableEq, Repr

/-- `From<&ShipStatus> for bool` (main.rs:47-54). -/
def ShipStatus.isAlive : ShipStatus → Bool
  | .Alive => true
  | .Dead _ => false

/-- `Ship` (main.rs:56-61). -/
structure Ship where
  position : FVec2
  velocity : FVec2
  rotation : F
  status : ShipStatus
deriving DecidableEq, Repr

/-- `Ship::default` (main.rs:63-72): arena center `SIZE * 0.5`, zero
velocity, zero rotation, alive. -/
def Ship.defaultShip : Ship :=
  ⟨⟨F.fin 640, F.fin 480⟩, FVec2.zeroV, F.fin 0, .Alive⟩

/-- `RockSize` (main.rs:93-97). -/
inductive RockSize where
  | Big | Medium | Small
deriving DecidableEq, Repr

/-- `RockSize::get_size` (main.rs:100-106), `SCALE = 38`. -/
def RockSize.get_size : RockSize → F
  | .Big => F.fin 114
  | .Medium => F.fin (266 / 5)
  | .Small => F.fin (152 / 5)

/-- `RockSize::get_score` (main.rs:108-114). -/
def RockSize.get_score : RockSize → ℕ
  | .Big => 20
  | .Medium => 50
  | .Small => 100

/-- `RockSize::get_collision_scale` (main.rs:116-122). -/
def RockSize.get_collision_scale : RockSize → F
  | .Big => F.fin (2 / 5)
  | .Medium => F.fin (13 / 20)
  | .Small => F.fin 1

/-- `RockSize::get_velocity` (main.rs:124-130). -/
def RockSize.get_velocity : RockSize → F
  | .Big => F.fin (3 / 4)
  | .Medium => F.fin 1
  | .Small => F.fin (8 / 5)

/-- `RockSize::new` (main.rs:132-140), the `From<f32>` conversion used
when spawning a wave. -/
def RockSize.ofF (size : F) : RockSize :=
  if size.blt (F.fin (3 / 10)) then .Small
  else if (F.fin (3 / 10)).ble size && size.blt (F.fin (59 / 100)) then .Medium
  else .Big

/-- `Rock` (main.rs:73-79). -/
structure Rock where
  position : FVec2
  velocity : FVec2
  size : RockSize
  seed : ℕ
  removed : Bool
deriving DecidableEq, Repr

/-- `AlienSize` (main.rs:149-152). -/
inductive AlienSize where
  | Big | Small
deriving DecidableEq, Repr

/-- `AlienSize::collision_size` (main.rs:155-160). -/
def AlienSize.collision_size : AlienSize → F
  | .Big => F.fin (152 / 5)
  | .Small => F.fin 19

/-- `AlienSize::direction_change_time` (main.rs:162-167). -/
def AlienSize.direction_change_time : AlienSize → F
  | .Big => F.fin (17 / 20)
  | .Small => F.fin (7 / 20)

/-- `AlienSize::shoot_time` (main.rs:169-174). -/
def AlienSize.shoot_time : AlienSize → F
  | .Big => F.fin (5 / 4)
  | .Small => F.fin (3 / 4)

/-- `AlienSize::speed` (main.rs:176-181). -/
def AlienSize.speed : AlienSize → F
  | .Big => F.fin 3
  | .Small => F.fin 6

/-- `Alien` (main.rs:184-191). -/
structure Alien where
  position : FVec2
  direction : FVec2
  size : AlienSize
  removed : Bool
  last_shot : F
  last_direction : F
deriving DecidableEq, Repr

/-- `Alien::new` (main.rs:206-214): given position and size, remaining
fields from `Alien::default` (main.rs:193-204). -/
def Alien.newAlien (position : FVec2) (size : AlienSize) : Alien :=
  ⟨position, FVec2.zeroV, size, false, F.fin 0, F.fin 0⟩

/-- `ParticleType` (main.rs:326-329); payloads as in `LineParticle`
(main.rs:293-296) and `DotParticle` (main.rs:310-312). -/
inductive ParticleType where
  | Line : F → F → ParticleType
  | Dot : F → ParticleType
deriving DecidableEq, Repr

/-- `Particle` (main.rs:331-336). -/
structure Particle where
  position : FVec2
  velocity : FVec2
  time_to_live : F
  particle_type : ParticleType
deriving DecidableEq, Repr

/-- `ProjectileState` (main.rs:352-355). -/
inductive ProjectileState where
  | Alive : F → ProjectileState
  | Dead : ProjectileState
deriving DecidableEq, Repr

/-- `From<f32> for ProjectileState` (main.rs:357-367). -/
def ProjectileState.ofTtl (value : F) : ProjectileState :=
  if value.bgt (F.fin 0) then .Alive value else .Dead

/-- `Projectile` (main.rs:338-343). -/
structure Projectile where
  position : FVec2
  velocity : FVec2
  state : ProjectileState
  spawn : F
deriving DecidableEq, Repr

/-- `Projectile::is_alive` via `From<&ProjectileState> for bool`
(main.rs:345-350, 369-376). -/
def Projectile.is_alive (p : Projectile) : Bool :=
  match p.state with
  | .Dead => false
  | .Alive ttl => (F.fin 0).blt ttl

/-! ## Debris (main.rs:639-686) -/

/-- One iteration of the `splat_dots` loop body (main.rs:671-685):
draws angle, position jitter (x, y), velocity scalar, lifetime. -/
def splatDotStep (ops : FloatOps) (position : FVec2)
    (acc : List Particle × RngState) (_i : ℕ) : List Particle × RngState :=
  let (ps, r) := acc
  let (a, r) := r.nextF32
  let angle := tauF.mul a
  let direction := fromAngle ops angle
  let (jx, r) := r.nextF32
  let (jy, r) := r.nextF32
  let pos := position.vadd ⟨jx, jy⟩
  let (vs, r) := r.nextF32
  let velocity := direction.smul ((F.fin 2).add ((F.fin 4).mul vs))
  let (tl, r) := r.nextF32
  let time_to_live := (F.fin (1 / 2)).add ((F.fin (2 / 5)).mul tl)
  (ps ++ [⟨pos, velocity, time_to_live, .Dot (F.fin (19 / 20))⟩], r)

/-- `splat_dots` (main.rs:665-686). -/
def splat_dots (ops : FloatOps) (position : FVec2) (count : ℕ)
    (particles : List Particle) (rng : RngState) : List Particle × RngState :=
  (List.range count).foldl (splatDotStep ops position) (particles, rng)

/-- One iteration of the `splat_lines` loop body (main.rs:645-662). -/
def splatLineStep (ops : FloatOps) (position : FVec2)
    (acc : List Particle × RngState) (_i : ℕ) : List Particle × RngState :=
  let (ps, r) := acc
  let (a, r) := r.nextF32
  let angle := tauF.mul a
  let direction := fromAngle ops angle
  let (jx, r) := r.nextF32
  let (jy, r) := r.nextF32
  let pos := position.vadd ⟨jx, jy⟩
  let (vs, r) := r.nextF32
  let velocity := (direction.smul (F.fin 2)).smul vs
  let (tl, r) := r.nextF32
  let time_to_live := (F.fin 3).add tl
  let (rot, r) := r.nextF32
  let (len, r) := r.nextF32
  let lineRot := tauF.mul rot
  let lineLen := (F.fin 38).mul ((F.fin (3 / 5)).add ((F.fin (2 / 5)).mul len))
  (ps ++ [⟨pos, velocity, time_to_live, .Line lineRot lineLen⟩], r)

/-- `splat_lines` (main.rs:639-663). -/
def splat_lines (ops : FloatOps) (position : FVec2) (count : ℕ)
    (particles : List Particle) (rng : RngState) : List Particle × RngState :=
  (List.range count).foldl (splatLineStep ops position) (particles, rng)

/-! ## Fragmentation (main.rs:688-723) -/

/-- Result record of `hit_rock` (the Rust function mutates the rock,
the RNG and the particle list in place and returns the children). -/
structure HitResult where
  rock : Rock
  rng : RngState
  particles : List Particle
  children : Option (List Rock)

/-- One iteration of the child-spawning loop of `hit_rock`
(main.rs:706-721): next size, one `f32` draw for the speed factor, one
`u64` draw for the child's shape seed. -/
def hitRockChildStep (parent : Rock) (new_direction impact : FVec2)
    (acc : List Rock × RngState) (_i : ℕ) : List Rock × RngState :=
  let (rs, r) := acc
  let new_size :=
    match parent.size with
    | .Big => RockSize.Medium
    | .Medium => RockSize.Small
    | .Small => RockSize.Small  -- `unreachable!()` in the source
  let (f, r) := r.nextF32
  let velocity :=
    (((new_direction.smul (F.fin (3 / 2))).smul f).smul parent.size.get_velocity).vadd impact
  let (sd, r) := r.nextU64
  (rs ++ [⟨parent.position, velocity, new_size, sd, false⟩], r)

/-- `hit_rock` (main.rs:688-723): mark the rock removed, splat 10 dot
particles, and unless the rock is Small spawn 2 children whose velocity
is the parent's normalized heading scaled by `1.5 * U * sizeFactor`
plus the impact term (`impact.map_or(ZERO, |i| i * 1.5)`). -/
def hit_rock (ops : FloatOps) (rock : Rock) (rng : RngState)
    (particles : List Particle) (impact : Option FVec2) : HitResult :=
  let rock := { rock with removed := true }
  let sd := splat_dots ops rock.position 10 particles rng
  match rock.size with
  | .Small => ⟨rock, sd.2, sd.1, none⟩
  | _ =>
    let new_direction := rock.velocity.normalize
    let impactTerm :=
      match impact with
      | none => FVec2.zeroV
      | some imp => imp.smul (F.fin (3 / 2))
    let ch :=
      (List.range 2).foldl (hitRockChildStep rock new_direction impactTerm) ([], sd.2)
    ⟨rock, ch.2, sd.1, some ch.1⟩

/-! ## Session state (main.rs:216-262)

`sounds` (opaque audio handles, fire-and-forget playback) and
`render_thruster_plume` (a render-only flag) are omitted: both are
external-service plumbing with no effect on the update logic modelled
here. -/

/-- `State` (main.rs:216-234). -/
structure GState where
  now : F
  stage_start : F
  delta : F
  ship : Ship
  rocks : List Rock
  particles : List Particle
  projectiles : List Projectile
  aliens : List Alien
  rng : RngState
  lifes : ℕ
  score : ℕ
  last_score : ℕ
  bloop : ℕ
  last_bloop : ℕ
  frame : ℕ

/-! ## Wave generation and resets (main.rs:807-852) -/

/-- One iteration of the `reset_rocks` loop body (main.rs:814-829).
Draw order: angle, size class, position x, position y, speed factor,
shape seed. -/
def resetRockStep (ops : FloatOps) (acc : List Rock × RngState) (_i : ℕ) :
    List Rock × RngState :=
  let (rs, r) := acc
  let (a, r) := r.nextF32
  let angle := tauF.mul a
  let direction := fromAngle ops angle
  let (szf, r) := r.nextF32
  let rock_size := RockSize.ofF szf
  let (px, r) := r.nextF32
  let (py, r) := r.nextF32
  let position : FVec2 := ⟨px.mul (F.fin 1280), py.mul (F.fin 960)⟩
  let (vf, r) := r.nextF32
  let velocity := ((direction.smul (F.fin 3)).smul vf).smul rock_size.get_velocity
  let (sd, r) := r.nextU64
  (rs ++ [⟨position, velocity, rock_size, sd, false⟩], r)

/-- The rock-spawning loop of `reset_rocks` (main.rs:814-829) for a
given rock count.  (Irreducible: no theorem depends on the spawned
rocks' values, and keeping it folded stops unification from reducing
into the fold when the count is a symbolic division.) -/
@[irreducible] def genRocks (ops : FloatOps) (bound : ℕ) (rng : RngState) :
    List Rock × RngState :=
  (List.range bound).foldl (resetRockStep ops) ([], rng)

/-- `reset_rocks` (main.rs:807-832): clear the field and spawn
`20 + score / 1500` rocks; record the wave start time. -/
def reset_rocks (ops : FloatOps) (s : GState) : GState :=
  { s with rocks := (genRocks ops (20 + s.score / 1500) s.rng).1,
           rng := (genRocks ops (20 + s.score / 1500) s.rng).2,
           stage_start := s.now }

mutual

/-- `reset_level` (main.rs:834-844), fueled.  The Rust recursion is
unbounded syntactically but reaches depth at most 2 on every reachable
input (`reset_game` sets `lifes = 3` before its nested `reset_level`
call, so the nested call never re-enters `reset_game`); the fuel used
below is never exhausted. -/
def reset_level_fuel (ops : FloatOps) : ℕ → GState → GState
  | 0, s => s
  | n + 1, s =>
    let s1 :=
      if s.ship.status.isAlive then s
      else if s.lifes = 0 then reset_game_fuel ops n s
      else { s with lifes := s.lifes - 1 }
    { s1 with ship := Ship.defaultShip }
termination_by n => 2 * n

/-- `reset_game` (main.rs:846-852), fueled: lives back to 3, score back
to 0, then `reset_level` and `reset_rocks`. -/
def reset_game_fuel (ops : FloatOps) (n : ℕ) (s : GState) : GState :=
  let s := { s with lifes := 3, score := 0 }
  let s := reset_level_fuel ops n s
  reset_rocks ops s
termination_by 2 * n + 1

end

/-- `reset_level` (main.rs:834-844). -/
def reset_level (ops : FloatOps) (s : GState) : GState :=
  reset_level_fuel ops 8 s

/-- `reset_game` (main.rs:846-852). -/
def reset_game (ops : FloatOps) (s : GState) : GState :=
  reset_game_fuel ops 8 s

/-! ## Rock collision pass (main.rs:425-489)

The per-rock loop body: integrate and wrap the rock's position, then in
order test the ship, every alien, and every projectile against the
rock.  The rock's `removed` flag is never re-read between these checks,
so one rock can take several hits in one frame. -/

/-- Mutable state threaded through the rock loop. -/
structure RockPassSt where
  ship : Ship
  aliens : List Alien
  projectiles : List Projectile
  particles : List Particle
  rng : RngState
  score : ℕ
  additional : List Rock

/-- Ship-vs-rock check (main.rs:430-446): if the ship is alive and
within the rock's effective collision radius, the ship dies and the
rock is hit with the ship's normalized velocity as impact. -/
def rockShipCheck (ops : FloatOps) (now : F) (st : RockPassSt) (rock : Rock) :
    RockPassSt × Rock :=
  if st.ship.status.isAlive &&
      (rock.position.fdist st.ship.position).blt
        (rock.size.get_size.mul rock.size.get_collision_scale) then
    let ship := { st.ship with status := .Dead (DeathTime.new now) }
    let res := hit_rock ops rock st.rng st.particles st.ship.velocity.tryNormalize
    ({ st with ship := ship, rng := res.rng, particles := res.particles,
               additional := st.additional ++ (res.children.getD []) }, res.rock)
  else (st, rock)

/-- Alien-vs-rock loop body (main.rs:449-467): a non-removed alien
within the radius is removed, the rock's score value is added, and the
rock is hit with the alien's normalized velocity as impact. -/
def rockAlienStep (ops : FloatOps)
    (acc : List Alien × RockPassSt × Rock) (alien : Alien) :
    List Alien × RockPassSt × Rock :=
  let (done, st, rock) := acc
  if !alien.removed &&
      (rock.position.fdist alien.position).blt
        (rock.size.get_size.mul rock.size.get_collision_scale) then
    let alien := { alien with removed := true }
    let score := st.score + rock.size.get_score
    let res := hit_rock ops rock st.rng st.particles
      ((alien.direction.smul alien.size.speed).tryNormalize)
    (done ++ [alien],
     { st with score := score, rng := res.rng, particles := res.particles,
               additional := st.additional ++ (res.children.getD []) },
     res.rock)
  else (done ++ [alien], st, rock)

/-- Projectile-vs-rock loop body (main.rs:470-488): an alive projectile
within the radius dies, the rock's score value is added, and the rock
is hit with the projectile's normalized velocity as impact. -/
def rockProjectileStep (ops : FloatOps)
    (acc : List Projectile × RockPassSt × Rock) (projectile : Projectile) :
    List Projectile × RockPassSt × Rock :=
  let (done, st, rock) := acc
  if projectile.is_alive &&
      (rock.position.fdist projectile.position).blt
        (rock.size.get_size.mul rock.size.get_collision_scale) then
    let projectile := { projectile with state := .Dead }
    let score := st.score + rock.size.get_score
    let res := hit_rock ops rock st.rng st.particles projectile.velocity.tryNormalize
    (done ++ [projectile],
     { st with score := score, rng := res.rng, particles := res.particles,
               additional := st.additional ++ (res.children.getD []) },
     res.rock)
  else (done ++ [projectile], st, rock)

/-- The whole per-rock loop body (main.rs:426-489). -/
def rockUpdateOne (ops : FloatOps) (now : F) (st : RockPassSt) (rock : Rock) :
    RockPassSt × Rock :=
  let rock := { rock with position := keep_in_frame (rock.position.vadd rock.velocity) }
  let (st, rock) := rockShipCheck ops now st rock
  let (aliens, st, rock) := st.aliens.foldl (rockAlienStep ops) ([], st, rock)
  let st := { st with aliens := aliens }
  let (projectiles, st, rock) := st.projectiles.foldl (rockProjectileStep ops) ([], st, rock)
  ({ st with projectiles := projectiles }, rock)

/-! ## Projectile update (main.rs:497-521) -/

/-- Projectile-vs-alien loop body (main.rs:511-519).  Note the guard:
the alien is killed only while `now - spawn < 0.15`, i.e. only INSIDE
the grace window. -/
def projAlienStep (now : F) (acc : List Alien × Projectile) (alien : Alien) :
    List Alien × Projectile :=
  let (done, proj) := acc
  if !alien.removed && (now.sub proj.spawn).blt (F.fin (3 / 20)) &&
      (alien.position.fdist proj.position).blt alien.size.collision_size then
    (done ++ [{ alien with removed := true }], { proj with state := .Dead })
  else (done ++ [alien], proj)

/-- The per-projectile loop body (main.rs:497-521): integrate and wrap;
if alive, check the ship (radius `SCALE * 0.7 = 26.6`) else decrement
the lifetime; then run the alien checks. -/
def projectileUpdateOne (now delta : F) (ship : Ship) (aliens : List Alien)
    (proj : Projectile) : Ship × List Alien × Projectile :=
  let proj := { proj with position := keep_in_frame (proj.position.vadd proj.velocity) }
  match proj.state with
  | .Dead => (ship, aliens, proj)
  | .Alive time_to_live =>
    let (ship, proj) :=
      if ship.status.isAlive &&
          (ship.position.fdist proj.position).blt (F.fin (133 / 5)) then
        ({ ship with status := .Dead (DeathTime.new now) }, { proj with state := .Dead })
      else (ship, { proj with state := ProjectileState.ofTtl (time_to_live.sub delta) })
    let (aliens, proj) := aliens.foldl (projAlienStep now) ([], proj)
    (ship, aliens, proj)

/-! ## Alien update (main.rs:523-557) -/

/-- Result of one alien-loop iteration. -/
structure AlienUpdResult where
  ship : Ship
  alien : Alien
  projectiles : List Projectile
  particles : List Particle
  rng : RngState

/-- The per-alien loop body (main.rs:523-556): ship collision check
(no aliveness check on the ship), then for a surviving alien direction
changes, movement with wraparound, and timed shooting with
`normalize_or_zero` aim; a removed alien splats debris. -/
def alienUpdateOne (ops : FloatOps) (now : F) (ship : Ship) (alien : Alien)
    (projectiles : List Projectile) (particles : List Particle) (rng : RngState) :
    AlienUpdResult :=
  let (alien, ship) :=
    if !alien.removed &&
        (alien.position.fdist ship.position).blt alien.size.collision_size then
      ({ alien with removed := true }, { ship with status := .Dead (DeathTime.new now) })
    else (alien, ship)
  if !alien.removed then
    let (alien, rng) :=
      if (now.sub alien.last_direction).bgt alien.size.direction_change_time then
        let (a, rng) := rng.nextF32
        let angle := tauF.mul a
        ({ alien with last_direction := now,
                      direction := ⟨ops.fcos angle, ops.fsin angle⟩ }, rng)
      else (alien, rng)
    let alien := { alien with
      position := keep_in_frame (alien.position.vadd (alien.direction.smul alien.size.speed)) }
    let (alien, projectiles) :=
      if (now.sub alien.last_shot).bgt alien.size.shoot_time then
        let direction := (ship.position.vsub alien.position).normalizeOrZero
        ({ alien with last_shot := now },
         projectiles ++
           [⟨alien.position.vadd (direction.smul (F.fin (209 / 10))),
             direction.smul (F.fin 6), .Alive (F.fin 2), now⟩])
      else (alien, projectiles)
    ⟨ship, alien, projectiles, particles, rng⟩
  else
    let sd := splat_dots ops alien.position 15 particles rng
    let sl := splat_lines ops alien.position 4 sd.1 sd.2
    ⟨ship, alien, projectiles, sl.1, sl.2⟩

/-! ## Death / respawn step (main.rs:567-586) -/

/-- The death/respawn block of `update`: on the death frame
(`death_time == now`) splat debris at the ship; once `now` strictly
exceeds the revive deadline, run `reset_level`. -/
def deathRespawnStep (ops : FloatOps) (s : GState) : GState :=
  match s.ship.status with
  | .Alive => s
  | .Dead value =>
    let s :=
      if value.death_time.beq s.now then
        let sd := splat_dots ops s.ship.position 20 s.particles s.rng
        let sl := splat_lines ops s.ship.position 5 sd.1 sd.2
        { s with particles := sl.1, rng := sl.2 }
      else s
    if s.now.bgt value.death_timer then reset_level ops s else s

/-! ## Alien spawn thresholds (main.rs:612-636) -/

/-- The score-threshold block of `update`: two independent integer
quotient comparisons (`/ 5000` for a Big alien, `/ 8000` for a Small
alien); each spawn draws a left/right bool and a vertical position;
finally `last_score` catches up with `score`. -/
def alienSpawnStep (s : GState) : GState :=
  let s :=
    if s.last_score / 5000 ≠ s.score / 5000 then
      let (b, r) := s.rng.nextBool
      let x := if b then F.fin 0 else F.fin 1242
      let (yf, r) := r.nextF32
      let y := yf.mul (F.fin 960)
      { s with aliens := s.aliens ++ [Alien.newAlien ⟨x, y⟩ .Big], rng := r }
    else s
  let s :=
    if s.last_score / 8000 ≠ s.score / 8000 then
      let (b, r) := s.rng.nextBool
      let x := if b then F.fin 0 else F.fin 1242
      let (yf, r) := r.nextF32
      let y := yf.mul (F.fin 960)
      { s with aliens := s.aliens ++ [Alien.newAlien ⟨x, y⟩ .Small], rng := r }
    else s
  { s with last_score := s.score }

/-! ## Procedural rock silhouette (main.rs:995-1010)

`draw_space_rock` seeds a dedicated `Xoshiro256StarStar` from the
rock's stored 64-bit seed; SplitMix64 seeding and the xoshiro256** step
are embedded faithfully over `ℕ` with explicit `% 2^64`. -/

/-- IEEE division on the model (sign of zero not modelled). -/
def F.div : F → F → F
  | nan, _ => nan
  | _, nan => nan
  | inf, inf => nan
  | inf, ninf => nan
  | ninf, inf => nan
  | ninf, ninf => nan
  | inf, fin b => if 0 ≤ b then inf else ninf
  | ninf, fin b => if 0 ≤ b then ninf else inf
  | fin _, inf => fin 0
  | fin _, ninf => fin 0
  | fin a, fin b =>
    if b = 0 then (if a = 0 then nan else if 0 < a then inf else ninf)
    else fin (a / b)

/-- One SplitMix64 step (the `seed_from_u64` seeding scheme):
returns the new state and the 64-bit output. -/
def splitmixNext (st : ℕ) : ℕ × ℕ :=
  let st := (st + 0x9e3779b97f4a7c15) % 2 ^ 64
  let z := st
  let z := ((z ^^^ (z >>> 30)) * 0xbf58476d1ce4e5b9) % 2 ^ 64
  let z := ((z ^^^ (z >>> 27)) * 0x94d049bb133111eb) % 2 ^ 64
  let z := z ^^^ (z >>> 31)
  (st, z)

/-- `Xoshiro256StarStar` state: four 64-bit words. -/
structure Xoshiro256SS where
  s0 : ℕ
  s1 : ℕ
  s2 : ℕ
  s3 : ℕ
deriving DecidableEq, Repr

/-- `Xoshiro256StarStar::seed_from_u64`: fill the four state words from
a SplitMix64 stream started at the seed.  (Marked irreducible so that
unification never tries to symbolically reduce the 256-bit seeding
arithmetic; no theorem needs its numeric value.) -/
@[irreducible] def xoshiroSSFromSeed (seed : ℕ) : Xoshiro256SS :=
  let (st, a) := splitmixNext (seed % 2 ^ 64)
  let (st, b) := splitmixNext st
  let (st, c) := splitmixNext st
  let (_, d) := splitmixNext st
  ⟨a, b, c, d⟩

/-- 64-bit left rotation. -/
def rotl64 (x k : ℕ) : ℕ := ((x <<< k) % 2 ^ 64) ||| (x >>> (64 - k))

/-- The xoshiro256** output and state-advance step.  (Irreducible for
the same reason as the seeding function: the theorems below depend on
determinism and on the `% 7` range reduction, never on the generator's
numeric outputs.) -/
@[irreducible] def Xoshiro256SS.next (g : Xoshiro256SS) : ℕ × Xoshiro256SS :=
  let result := (rotl64 ((g.s1 * 5) % 2 ^ 64) 7 * 9) % 2 ^ 64
  let t := (g.s1 <<< 17) % 2 ^ 64
  let s2 := g.s2 ^^^ g.s0
  let s3 := g.s3 ^^^ g.s1
  let s1 := g.s1 ^^^ s2
  let s0 := g.s0 ^^^ s3
  let s2 := s2 ^^^ t
  let s3 := rotl64 s3 45
  (result, ⟨s0, s1, s2, s3⟩)

/-- `gen::<f32>()` on the dedicated generator (rand crate sampler,
modelled as 24 high bits of one output, a dyadic rational in `[0,1)`). -/
def Xoshiro256SS.nextF32 (g : Xoshiro256SS) : F × Xoshiro256SS :=
  (F.fin ((g.next.1 >>> 40 : ℕ) / (2 ^ 24 : ℚ)), g.next.2)

/-- `gen_range(8..15)` (rand crate uniform-int sampler, modelled as a
deterministic in-range function of one output). -/
def Xoshiro256SS.genUniform8To15 (g : Xoshiro256SS) : ℕ × Xoshiro256SS :=
  (8 + g.next.1 % 7, g.next.2)

/-- One vertex of the silhouette loop (main.rs:999-1008): radius
`0.3 + 0.2 * U` with a 20% chance of a `-0.2` dent, angle
`i * (TAU / n) + PI * 0.125 * U`. -/
def silhouetteStep (ops : FloatOps) (n : ℕ) (acc : List FVec2 × Xoshiro256SS)
    (i : ℕ) : List FVec2 × Xoshiro256SS :=
  let (ps, g) := acc
  let (r1, g) := g.nextF32
  let radius0 := (F.fin (3 / 10)).add ((F.fin (1 / 5)).mul r1)
  let (r2, g) := g.nextF32
  let radius := if r2.blt (F.fin (1 / 5)) then radius0.sub (F.fin (1 / 5)) else radius0
  let (r3, g) := g.nextF32
  let angle := ((F.fin i).mul (tauF.div (F.fin n))).add ((piF.mul (F.fin (1 / 8))).mul r3)
  let direction := fromAngle ops angle
  (ps ++ [direction.smul radius], g)

/-- The vertex count drawn by `draw_space_rock` (main.rs:998):
`gen_range(8..15)` on the seed-derived generator.  (Irreducible to keep
unification from reducing into the generator arithmetic.) -/
@[irreducible] def rockVertexCount (seed : ℕ) : ℕ :=
  (xoshiroSSFromSeed seed).genUniform8To15.1

/-- The generator state after the vertex-count draw (main.rs:998). -/
@[irreducible] def rockVertexRng (seed : ℕ) : Xoshiro256SS :=
  (xoshiroSSFromSeed seed).genUniform8To15.2

/-- The vertex loop of `draw_space_rock` (main.rs:999-1008) for a given
vertex count and generator state. -/
def silhouettePoints (ops : FloatOps) (n : ℕ) (g : Xoshiro256SS) : List FVec2 :=
  ((List.range n).foldl (silhouetteStep ops n) ([], g)).1

/-- The point sequence produced by `draw_space_rock` (main.rs:995-1010).
The session RNG is passed in to express non-interference: the function
seeds its own dedicated generator from the rock's seed and never touches
the session generator. -/
def drawSpaceRockPoints (ops : FloatOps) (seed : ℕ) (_sessionRng : RngState) :
    List FVec2 :=
  silhouettePoints ops (rockVertexCount seed) (rockVertexRng seed)

/-! ## Concrete instantiations used by witnesses -/

/-- A concrete math backend for evaluating witnesses (the theorems
quantify over every backend). -/
def trivOps : FloatOps := ⟨fun _ => F.fin 1, fun _ => F.fin 0⟩

/-- A concrete all-zero session RNG stream for evaluating witnesses. -/
def rngZero : RngState := ⟨fun _ => 0, 0⟩

/-! ## Helper lemmas -/

/-- A left fold whose step appends exactly one element grows the list
by the length of the input. -/
lemma foldl_one_step_length {α β γ : Type _} (step : List α × β → γ → List α × β)
    (h : ∀ acc i, ∃ a b, step acc i = (acc.1 ++ [a], b)) :
    ∀ (l : List γ) (acc : List α × β),
      ((l.foldl step acc).1).length = acc.1.length + l.length := by
  intro l
  induction l with
  | nil => intro acc; simp
  | cons x l ih =>
    intro acc
    obtain ⟨a, b, hab⟩ := h acc x
    rw [List.foldl_cons, hab, ih]
    simp
    omega

/-- `splat_dots` appends exactly `count` particles. -/
lemma splat_dots_length (ops : FloatOps) (pos : FVec2) (count : ℕ)
    (ps : List Particle) (rng : RngState) :
    ((splat_dots ops pos count ps rng).1).length = ps.length + count := by
  have h : ∀ (acc : List Particle × RngState) (i : ℕ),
      ∃ a b, splatDotStep ops pos acc i = (acc.1 ++ [a], b) := by
    intro acc i
    rcases acc with ⟨l, r⟩
    exact ⟨_, _, rfl⟩
  simpa using foldl_one_step_length (splatDotStep ops pos) h (List.range count) (ps, rng)

/-- `splat_lines` appends exactly `count` particles. -/
lemma splat_lines_length (ops : FloatOps) (pos : FVec2) (count : ℕ)
    (ps : List Particle) (rng : RngState) :
    ((splat_lines ops pos count ps rng).1).length = ps.length + count := by
  have h : ∀ (acc : List Particle × RngState) (i : ℕ),
      ∃ a b, splatLineStep ops pos acc i = (acc.1 ++ [a], b) := by
    intro acc i
    rcases acc with ⟨l, r⟩
    exact ⟨_, _, rfl⟩
  simpa using foldl_one_step_length (splatLineStep ops pos) h (List.range count) (ps, rng)

/-- The wrapped axis value of `keep_in_frame`: always in `[0, w]`. -/
lemma wrapAxis_spec (x w : ℚ) (hw : 0 < w) :
    ∃ q : ℚ,
      (if (F.fin x).ble (F.fin 0) then F.fin w else (F.fin x).fmod (F.fin w)) = F.fin q
      ∧ 0 ≤ q ∧ q ≤ w := by
  by_cases hx : x ≤ 0
  · exact ⟨w, by simp [F.ble, hx], le_of_lt hw, le_refl w⟩
  · push_neg at hx
    have hw0 : w ≠ 0 := ne_of_gt hw
    have hq0 : (0 : ℚ) ≤ x / w := div_nonneg (le_of_lt hx) (le_of_lt hw)
    refine ⟨x - w * ⌊x / w⌋, ?_, ?_, ?_⟩
    · simp [F.ble, not_le.mpr hx, F.fmod, hw0, ratTrunc, hq0]
    · have h1 : (⌊x / w⌋ : ℚ) ≤ x / w := Int.floor_le _
      have h2 : w * (⌊x / w⌋ : ℚ) ≤ w * (x / w) :=
        mul_le_mul_of_nonneg_left h1 (le_of_lt hw)
      rw [mul_div_cancel₀ x hw0] at h2
      linarith
    · have h1 : x / w < ⌊x / w⌋ + 1 := Int.lt_floor_add_one _
      have h2 : w * (x / w) < w * ((⌊x / w⌋ : ℚ) + 1) :=
        (mul_lt_mul_left hw).mpr h1
      rw [mul_div_cancel₀ x hw0] at h2
      nlinarith

/-- The wrapped axis value is unchanged strictly inside `(0, w)`. -/
lemma wrapAxis_fixed (x w : ℚ) (hw : 0 < w) (h0 : 0 < x) (h1 : x < w) :
    (if (F.fin x).ble (F.fin 0) then F.fin w else (F.fin x).fmod (F.fin w)) = F.fin x := by
  have hw0 : w ≠ 0 := ne_of_gt hw
  have hq0 : (0 : ℚ) ≤ x / w := div_nonneg (le_of_lt h0) (le_of_lt hw)
  have hfl : ⌊x / w⌋ = 0 := by
    rw [Int.floor_eq_zero_iff]
    constructor
    · exact hq0
    · rw [div_lt_one hw]
      exact h1
  simp [F.ble, not_le.mpr h0, F.fmod, hw0, ratTrunc, hq0, hfl]

/-! ## Claim C4 — wraparound range and idempotence -/

/-- C4 counterexample: at the concrete input `p = (0,0)`, `v = (0,0)`
(a point sitting exactly on the origin line), `keep_in_frame (p + v)`
is `(1280, 960)` — the x coordinate is NOT in `[0, 1280)` — and a
second application moves the already-wrapped point to `(0, 0)`, so
`keep_in_frame` is not idempotent either. -/
theorem C4_wrap_claim_counterexample :
    keep_in_frame ⟨F.fin 0, F.fin 0⟩ = ⟨F.fin 1280, F.fin 960⟩
    ∧ ¬(∃ q : ℚ, (keep_in_frame ⟨F.fin 0, F.fin 0⟩).x = F.fin q ∧ 0 ≤ q ∧ q < 1280)
    ∧ keep_in_frame (keep_in_frame ⟨F.fin 0, F.fin 0⟩) ≠ keep_in_frame ⟨F.fin 0, F.fin 0⟩ := by
  have hbase : keep_in_frame ⟨F.fin 0, F.fin 0⟩ = ⟨F.fin 1280, F.fin 960⟩ := by decide
  refine ⟨hbase, ?_, ?_⟩
  · rintro ⟨q, hq, _, hlt⟩
    rw [hbase] at hq
    have : (1280 : ℚ) = q := by
      have := F.fin.injEq 1280 q
      simp at hq
      exact hq
    rw [← this] at hlt
    norm_num at hlt
  · rw [hbase]
    have h2 : keep_in_frame ⟨F.fin 1280, F.fin 960⟩ = ⟨F.fin 0, F.fin 0⟩ := by
      norm_num [keep_in_frame, F.ble, F.fmod, ratTrunc, Int.floor_one]
    rw [h2]
    decide

/-- C4 (amended): for every finite position `p` and finite displacement
`v`, both coordinates of `keep_in_frame (p + v)` lie in the CLOSED
boxes `[0, 1280] × [0, 960]` (a coordinate `≤ 0` snaps to the far
edge, so the extents themselves are reachable), and `keep_in_frame` is
the identity on points strictly inside `(0, 1280) × (0, 960)`. -/
theorem C4_wrap_range_idem_amended :
    (∀ px py vx vy : ℚ,
      ∃ qx qy : ℚ,
        keep_in_frame ⟨(F.fin px).add (F.fin vx), (F.fin py).add (F.fin vy)⟩
          = ⟨F.fin qx, F.fin qy⟩
        ∧ 0 ≤ qx ∧ qx ≤ 1280 ∧ 0 ≤ qy ∧ qy ≤ 960)
    ∧ (∀ px py : ℚ, 0 < px → px < 1280 → 0 < py → py < 960 →
        keep_in_frame ⟨F.fin px, F.fin py⟩ = ⟨F.fin px, F.fin py⟩) := by
  constructor
  · intro px py vx vy
    obtain ⟨qx, hqx, hqx0, hqx1⟩ := wrapAxis_spec (px + vx) 1280 (by norm_num)
    obtain ⟨qy, hqy, hqy0, hqy1⟩ := wrapAxis_spec (py + vy) 960 (by norm_num)
    refine ⟨qx, qy, ?_, hqx0, hqx1, hqy0, hqy1⟩
    simp only [keep_in_frame, F.add]
    rw [hqx, hqy]
  · intro px py h0x h1x h0y h1y
    simp only [keep_in_frame]
    rw [wrapAxis_fixed px 1280 (by norm_num) h0x h1x,
        wrapAxis_fixed py 960 (by norm_num) h0y h1y]

/-- C4 witness: the amended theorem applied at the concrete point
`p = (100, 200)`, `v = (1500, -100)` and at the interior point
`(5, 7)`. -/
theorem C4_wrap_witness :
    (∃ qx qy : ℚ,
      keep_in_frame ⟨(F.fin 100).add (F.fin 1500), (F.fin 200).add (F.fin (-100))⟩
        = ⟨F.fin qx, F.fin qy⟩
      ∧ 0 ≤ qx ∧ qx ≤ 1280 ∧ 0 ≤ qy ∧ qy ≤ 960)
    ∧ ((0 : ℚ) < 5 ∧ (5 : ℚ) < 1280 ∧ (0 : ℚ) < 7 ∧ (7 : ℚ) < 960)
    ∧ keep_in_frame ⟨F.fin 5, F.fin 7⟩ = ⟨F.fin 5, F.fin 7⟩ :=
  ⟨C4_wrap_range_idem_amended.1 100 200 1500 (-100),
   ⟨by norm_num, by norm_num, by norm_num, by norm_num⟩,
   C4_wrap_range_idem_amended.2 5 7 (by norm_num) (by norm_num) (by norm_num) (by norm_num)⟩

/-! ## Claim C5 — fragmentation law -/

/-- C5: for every rock hit via `hit_rock` — whatever the RNG state, the
particle list, the impact vector and the math backend — a Big rock
yields exactly 2 Medium children, a Medium rock exactly 2 Small
children, a Small rock none; the parent comes back marked removed and
is dropped by the end-of-frame `retain(|rock| !rock.removed)` filter. -/
theorem C5_hit_rock_fragmentation (ops : FloatOps) (rock : Rock) (rng : RngState)
    (particles : List Particle) (impact : Option FVec2) :
    ((hit_rock ops rock rng particles impact).rock.removed = true)
    ∧ (((hit_rock ops rock rng particles impact).children.getD []).map Rock.size =
        match rock.size with
        | .Big => [RockSize.Medium, RockSize.Medium]
        | .Medium => [RockSize.Small, RockSize.Small]
        | .Small => [])
    ∧ (List.filter (fun r => !r.removed) [(hit_rock ops rock rng particles impact).rock] = []) := by
  obtain ⟨pos, vel, size, seed, rem⟩ := rock
  cases size <;>
    simp [hit_rock, hitRockChildStep, List.range_succ]

/-! ## Claim C6 — alien spawn threshold crossing -/

/-- The sizes of the aliens the progression step appends, as a function
of the two quotient comparisons. -/
lemma alienSpawnStep_sizes (s : GState) :
    ((alienSpawnStep s).aliens.drop s.aliens.length).map Alien.size =
      (if s.last_score / 5000 = s.score / 5000 then ([] : List AlienSize)
       else [AlienSize.Big])
        ++ (if s.last_score / 8000 = s.score / 8000 then ([] : List AlienSize)
            else [AlienSize.Small]) := by
  by_cases h5 : s.last_score / 5000 = s.score / 5000 <;>
    by_cases h8 : s.last_score / 8000 = s.score / 8000 <;>
      simp [alienSpawnStep, h5, h8, RngState.nextBool, RngState.nextF32,
            Alien.newAlien, List.append_assoc, List.drop_left]

/-- The progression step always ends with `last_score = score`. -/
lemma alienSpawnStep_last_score (s : GState) :
    (alienSpawnStep s).last_score = s.score := by
  by_cases h5 : s.last_score / 5000 = s.score / 5000 <;>
    by_cases h8 : s.last_score / 8000 = s.score / 8000 <;>
      simp [alienSpawnStep, h5, h8, RngState.nextBool, RngState.nextF32]

/-- C6: in the progression step, a Big alien is appended exactly when
the integer quotient `score / 5000` changed, and a Small alien exactly
when `score / 8000` changed — two independent checks, so one scoring
event crossing both thresholds spawns both; `last_score` then catches
up.  In particular a change 4999 → 5099 spawns exactly one Big alien
and no Small alien, and a subsequent change 5099 → 6099 spawns none. -/
theorem C6_alien_spawn_thresholds (s : GState) :
    (((alienSpawnStep s).aliens.drop s.aliens.length).map Alien.size =
        (if s.last_score / 5000 = s.score / 5000 then ([] : List AlienSize)
         else [AlienSize.Big])
          ++ (if s.last_score / 8000 = s.score / 8000 then ([] : List AlienSize)
              else [AlienSize.Small]))
    ∧ (alienSpawnStep s).last_score = s.score
    ∧ (((alienSpawnStep { s with last_score := 4999, score := 5099 }).aliens.drop
          s.aliens.length).map Alien.size = [AlienSize.Big])
    ∧ (((alienSpawnStep { s with last_score := 5099, score := 6099 }).aliens.drop
          s.aliens.length).map Alien.size = []) := by
  refine ⟨alienSpawnStep_sizes s, alienSpawnStep_last_score s, ?_, ?_⟩
  · have h := alienSpawnStep_sizes { s with last_score := 4999, score := 5099 }
    have h5 : ¬(({ s with last_score := 4999, score := 5099 } : GState).last_score / 5000
        = ({ s with last_score := 4999, score := 5099 } : GState).score / 5000) := by
      norm_num
    have h8 : ({ s with last_score := 4999, score := 5099 } : GState).last_score / 8000
        = ({ s with last_score := 4999, score := 5099 } : GState).score / 8000 := by
      norm_num
    rw [if_neg h5, if_pos h8] at h
    simpa using h
  · have h := alienSpawnStep_sizes { s with last_score := 5099, score := 6099 }
    have h5 : ({ s with last_score := 5099, score := 6099 } : GState).last_score / 5000
        = ({ s with last_score := 5099, score := 6099 } : GState).score / 5000 := by
      norm_num
    have h8 : ({ s with last_score := 5099, score := 6099 } : GState).last_score / 8000
        = ({ s with last_score := 5099, score := 6099 } : GState).score / 8000 := by
      norm_num
    rw [if_pos h5, if_pos h8] at h
    simpa using h

/-! ## Claim C7 — silhouette seed determinism -/

/-- C7: the silhouette generator is deterministic in its 64-bit seed:
for any fixed seed and any math backend, two invocations — under
arbitrarily different session-RNG states — produce identical point
sequences, and the vertex count lies in `[8, 15)`. -/
theorem C7_silhouette_seed_deterministic (ops : FloatOps) (seed : ℕ)
    (g1 g2 : RngState) :
    drawSpaceRockPoints ops seed g1 = drawSpaceRockPoints ops seed g2
    ∧ 8 ≤ (drawSpaceRockPoints ops seed g1).length
    ∧ (drawSpaceRockPoints ops seed g1).length < 15 := by
  refine ⟨rfl, ?_⟩
  have hstep : ∀ (n : ℕ) (acc : List FVec2 × Xoshiro256SS) (i : ℕ),
      ∃ a b, silhouetteStep ops n acc i = (acc.1 ++ [a], b) := by
    intro n acc i
    rcases acc with ⟨l, g⟩
    exact ⟨_, _, rfl⟩
  have hfold : ∀ (n : ℕ) (g : Xoshiro256SS),
      (silhouettePoints ops n g).length = n := by
    intro n g
    simpa [silhouettePoints] using
      foldl_one_step_length (silhouetteStep ops n) (hstep n) (List.range n) ([], g)
  have hcount : 8 ≤ rockVertexCount seed ∧ rockVertexCount seed < 15 := by
    unfold rockVertexCount
    simp only [Xoshiro256SS.genUniform8To15]
    omega
  simp only [drawSpaceRockPoints]
  rw [hfold]
  exact hcount

/-! ## Claim C1 — session reset on game over -/

/-- C1 (code behavior at the failing input): when the ship is dead and
the lives are already exhausted, the session reset triggered that frame
(`reset_game` via `reset_level`, main.rs:834-852) leaves the score at 0
but the lives at 2, not 3: `reset_game` sets `lifes = 3` and then calls
`reset_level` again while the ship is still dead, and that nested call
decrements the freshly reset lives. -/
theorem C1_game_over_reset_lives (ops : FloatOps) (s : GState)
    (hdead : s.ship.status.isAlive = false) (hlives : s.lifes = 0) :
    (reset_level ops s).score = 0 ∧ (reset_level ops s).lifes = 2 := by
  simp [reset_level, reset_level_fuel, reset_game_fuel, reset_rocks, hdead, hlives]

/-- A concrete game-over session state for the C1 witness. -/
def gs0 : GState :=
  { now := F.fin 0, stage_start := F.fin 0, delta := F.fin 0,
    ship := { position := FVec2.zeroV, velocity := FVec2.zeroV,
              rotation := F.fin 0, status := .Dead (DeathTime.new (F.fin 0)) },
    rocks := [], particles := [], projectiles := [], aliens := [],
    rng := rngZero, lifes := 0, score := 777, last_score := 0,
    bloop := 0, last_bloop := 0, frame := 0 }

/-- C1 witness: the reset evaluated at a concrete dead-ship, zero-lives
session. -/
theorem C1_game_over_reset_lives_witness :
    (gs0.ship.status.isAlive = false ∧ gs0.lifes = 0)
    ∧ ((reset_level trivOps gs0).score = 0 ∧ (reset_level trivOps gs0).lifes = 2) :=
  ⟨⟨rfl, rfl⟩, C1_game_over_reset_lives trivOps gs0 rfl rfl⟩

/-! ## Claim C8 — ship death and respawn timing -/

/-- `reset_level` always replaces the ship with the default ship
(arena center, zero velocity, zero rotation, alive). -/
lemma reset_level_ship (ops : FloatOps) (s : GState) :
    (reset_level ops s).ship = Ship.defaultShip := by
  simp only [reset_level, reset_level_fuel, reset_game_fuel, reset_rocks]

/-- C8: a ship-killing collision at time `T` records status
`Dead(death_time = T, death_timer = T + 3.0)`; on every later frame the
respawn step keeps the ship dead while `now ≤ T + 3.0` and, on the
first frame with `now > T + 3.0`, replaces it by the default ship:
alive at the arena center `(640, 480)` with zero velocity and zero
rotation. -/
theorem C8_death_respawn_timing (ops : FloatOps) (s : GState) (T : ℚ)
    (hdead : s.ship.status = .Dead (DeathTime.new (F.fin T))) :
    (DeathTime.new (F.fin T)).death_time = F.fin T
    ∧ (DeathTime.new (F.fin T)).death_timer = F.fin (T + 3)
    ∧ (¬((F.fin (T + 3)).blt s.now = true) →
        (deathRespawnStep ops s).ship.status = .Dead (DeathTime.new (F.fin T)))
    ∧ (((F.fin (T + 3)).blt s.now = true) →
        (deathRespawnStep ops s).ship = Ship.defaultShip)
    ∧ Ship.defaultShip.position = ⟨F.fin 640, F.fin 480⟩
    ∧ Ship.defaultShip.velocity = FVec2.zeroV
    ∧ Ship.defaultShip.rotation = F.fin 0
    ∧ Ship.defaultShip.status = .Alive := by
  have htimer : (DeathTime.new (F.fin T)).death_timer = F.fin (T + 3) := by
    simp [DeathTime.new, F.add]
  refine ⟨rfl, htimer, ?_, ?_, rfl, rfl, rfl, rfl⟩
  · intro h
    cases hbeq : (DeathTime.new (F.fin T)).death_time.beq s.now <;>
      simp [deathRespawnStep, hdead, hbeq, F.bgt, htimer, h]
  · intro h
    cases hbeq : (DeathTime.new (F.fin T)).death_time.beq s.now <;>
      simp [deathRespawnStep, hdead, hbeq, F.bgt, htimer, h, reset_level_ship]

/-- A concrete dead-ship session state for the C8 witness. -/
def gs8 : GState :=
  { gs0 with now := F.fin 5, lifes := 2,
             ship := { gs0.ship with status := .Dead (DeathTime.new (F.fin 1)) } }

/-- C8 witness: death at `T = 1`, checked at `now = 5 > 4 = T + 3`, and
at `now = 2 ≤ 4` for the persistence half. -/
theorem C8_death_respawn_timing_witness :
    (gs8.ship.status = .Dead (DeathTime.new (F.fin 1))
      ∧ (F.fin (1 + 3)).blt gs8.now = true
      ∧ (deathRespawnStep trivOps gs8).ship = Ship.defaultShip)
    ∧ (({ gs8 with now := F.fin 2 } : GState).ship.status
          = .Dead (DeathTime.new (F.fin 1))
      ∧ ¬((F.fin (1 + 3)).blt ({ gs8 with now := F.fin 2 } : GState).now = true)
      ∧ (deathRespawnStep trivOps { gs8 with now := F.fin 2 }).ship.status
          = .Dead (DeathTime.new (F.fin 1))) := by
  have hlt : (F.fin (1 + 3)).blt gs8.now = true := by
    norm_num [F.blt, gs8, gs0]
  have hnlt : ¬((F.fin (1 + 3)).blt ({ gs8 with now := F.fin 2 } : GState).now = true) := by
    norm_num [F.blt, gs8, gs0]
  exact ⟨⟨rfl, hlt,
          (C8_death_respawn_timing trivOps gs8 1 rfl).2.2.2.1 hlt⟩,
         ⟨rfl, hnlt,
          (C8_death_respawn_timing trivOps { gs8 with now := F.fin 2 } 1 rfl).2.2.1 hnlt⟩⟩

/-! ## Degenerate-vector helper lemmas -/

/-- `ratSqrt 0 = 0`. -/
lemma ratSqrt_zero : ratSqrt 0 = 0 := by
  simp [ratSqrt]

/-- The model square root is exact at zero. -/
lemma fsqrt_fin_zero : (F.fin 0).fsqrt = F.fin 0 := by
  simp [F.fsqrt, ratSqrt_zero]

/-- Subtracting a finite point from itself gives the zero vector. -/
lemma vsub_self_fin (a b : ℚ) :
    FVec2.vsub ⟨F.fin a, F.fin b⟩ ⟨F.fin a, F.fin b⟩ = FVec2.zeroV := by
  simp [FVec2.vsub, F.sub, F.neg, F.add, FVec2.zeroV]

/-- The distance from a finite point to itself is zero. -/
lemma fdist_self_fin (a b : ℚ) :
    FVec2.fdist ⟨F.fin a, F.fin b⟩ ⟨F.fin a, F.fin b⟩ = F.fin 0 := by
  simp [FVec2.fdist, vsub_self_fin, FVec2.length, FVec2.dot, FVec2.zeroV,
        F.mul, F.add, fsqrt_fin_zero]

/-- The reciprocal length of the zero vector is `+inf` (division of 1
by `sqrt 0 = +0`). -/
lemma lengthRecip_zeroV : FVec2.lengthRecip FVec2.zeroV = F.inf := by
  simp [FVec2.lengthRecip, FVec2.length, FVec2.dot, FVec2.zeroV, F.mul, F.add,
        fsqrt_fin_zero, F.recip]

/-- glam's `normalize` on the zero vector produces `(nan, nan)`
(`0 * inf = nan`). -/
lemma normalize_zeroV : FVec2.normalize FVec2.zeroV = ⟨F.nan, F.nan⟩ := by
  simp only [FVec2.normalize, lengthRecip_zeroV]
  simp [FVec2.smul, FVec2.zeroV, F.mul]

/-- glam's `try_normalize` on the zero vector yields `None` (the
reciprocal length `inf` is not finite). -/
lemma tryNormalize_zeroV : FVec2.tryNormalize FVec2.zeroV = none := by
  simp [FVec2.tryNormalize, lengthRecip_zeroV, F.isFinite]

/-- glam's `normalize_or_zero` on the zero vector yields the zero
vector. -/
lemma normalizeOrZero_zeroV : FVec2.normalizeOrZero FVec2.zeroV = FVec2.zeroV := by
  simp [FVec2.normalizeOrZero, lengthRecip_zeroV, F.isFinite]

/-! ## hit_rock helper lemmas -/

/-- `hit_rock` returns the same rock with only the removal flag set. -/
lemma hit_rock_rock (ops : FloatOps) (rock : Rock) (rng : RngState)
    (particles : List Particle) (impact : Option FVec2) :
    (hit_rock ops rock rng particles impact).rock = { rock with removed := true } := by
  obtain ⟨p, v, sz, sd, rm⟩ := rock
  cases sz <;> rfl

/-- `hit_rock` emits exactly 10 debris particles. -/
lemma hit_rock_particles_length (ops : FloatOps) (rock : Rock) (rng : RngState)
    (particles : List Particle) (impact : Option FVec2) :
    (hit_rock ops rock rng particles impact).particles.length = particles.length + 10 := by
  obtain ⟨p, v, sz, sd, rm⟩ := rock
  cases sz <;> simp [hit_rock, splat_dots_length]

/-- The sizes of the children `hit_rock` spawns, by parent size. -/
lemma hit_rock_children_sizes (ops : FloatOps) (rock : Rock) (rng : RngState)
    (particles : List Particle) (impact : Option FVec2) :
    ((hit_rock ops rock rng particles impact).children.getD []).map Rock.size =
      (match rock.size with
       | .Big => [RockSize.Medium, RockSize.Medium]
       | .Medium => [RockSize.Small, RockSize.Small]
       | .Small => []) := by
  obtain ⟨p, v, sz, sd, rm⟩ := rock
  cases sz <;> simp [hit_rock, hitRockChildStep, List.range_succ]

end BigSpaceRock
